import Mathlib

/-
Shallow embedding of the wegue `LayerFactory` (src/src/factory/Layer.js).

Modelling conventions:
- JavaScript dynamic values are modelled by `JVal`.  Arrays are modelled as
  arrays of numbers, which covers the extent arrays the factory handles, and
  JS numbers are modelled as rationals (so the NaN value has no counterpart).
- `Math.random().toString(36)` draws are modelled as an explicit stream
  `rnd : Nat → String` of draw strings together with a draw counter that is
  threaded through every call, and the global `fetch` followed by `.json()`
  is modelled as a function from the URL value to the decoded JSON manifest
  (a list of layer configs).
- The `async` functions are modelled as value-returning functions whose
  thrown errors / promise rejections appear as `Except.error`; the recursive
  collection loading is bounded by an explicit `fuel` argument
  (`Err.fuelOut` never occurs for acyclic manifests given enough fuel).
-/

/-- JavaScript values as used by the layer factory. -/
inductive JVal where
  | undef : JVal
  | null : JVal
  | bool : Bool → JVal
  | num : Rat → JVal
  | str : String → JVal
  | arr : List Rat → JVal
  deriving DecidableEq, Repr

/-- JavaScript truthiness of a `JVal` (arrays are always truthy). -/
def truthy : JVal → Bool
  | JVal.undef => false
  | JVal.null => false
  | JVal.bool b => b
  | JVal.num q => decide (q ≠ 0)
  | JVal.str s => decide (s ≠ "")
  | JVal.arr _ => true

/-- JavaScript `a || b`. -/
def jsOr (a b : JVal) : JVal := if truthy a then a else b

/-- A layer config object (`lConf` in the source).  Absent fields are
`JVal.undef`, matching a JS property read on a missing key. -/
structure Config where
  type : JVal := JVal.undef
  name : JVal := JVal.undef
  lid : JVal := JVal.undef
  url : JVal := JVal.undef
  layers : JVal := JVal.undef
  tiled : JVal := JVal.undef
  serverType : JVal := JVal.undef
  format : JVal := JVal.undef
  formatConfig : JVal := JVal.undef
  style : JVal := JVal.undef
  styleSelected : JVal := JVal.undef
  attributions : JVal := JVal.undef
  extent : JVal := JVal.undef
  visible : JVal := JVal.undef
  opacity : JVal := JVal.undef
  selectable : JVal := JVal.undef
  hoverable : JVal := JVal.undef
  hoverAttribute : JVal := JVal.undef
  displayInLayerList : JVal := JVal.undef
  deriving DecidableEq, Repr

/-- The four OpenLayers format constructors in the factory's table. -/
inductive FormatCtor where
  | MVT : FormatCtor
  | GeoJSON : FormatCtor
  | TopoJSON : FormatCtor
  | KML : FormatCtor
  deriving DecidableEq, Repr

/-- `formatMapping`: maps the format literal of the config to the
corresponding OL module.  A JS property lookup with any key other than the
four literal string keys yields `undefined`, modelled as `none`. -/
def formatMapping : JVal → Option FormatCtor
  | JVal.str "MVT" => some FormatCtor.MVT
  | JVal.str "GeoJSON" => some FormatCtor.GeoJSON
  | JVal.str "TopoJSON" => some FormatCtor.TopoJSON
  | JVal.str "KML" => some FormatCtor.KML
  | _ => none

/-- A constructed format parser instance: `new Ctor(cfg)`.  `cfg` is
`JVal.undef` when the constructor is invoked with no argument. -/
structure FormatInst where
  ctor : FormatCtor
  cfg : JVal
  deriving DecidableEq, Repr

/-- Modelled from the spec: the sibling `OlStyleFactory` collaborator
(`./OlStyle`, not among the provided sources).  Per the spec it maps a
style-configuration object to a style object
(`getInstance(styleConfig) → StyleObject`); it is modelled as an opaque
wrapper of the style config it was given. -/
structure StyleObj where
  conf : JVal
  deriving DecidableEq, Repr

/-- Modelled from the spec: `OlStyleFactory.getInstance`, the style
resolver collaborator consumed for `style` and `styleSelected`. -/
def OlStyleFactory.getInstance (styleConf : JVal) : StyleObj :=
  { conf := styleConf }

/-- `new TileWmsSource({...})` constructor options. -/
structure TileWmsSource where
  url : JVal
  paramsLAYERS : JVal
  paramsTILED : JVal
  serverType : JVal
  attributions : JVal
  deriving DecidableEq, Repr

/-- `new OsmSource()`: the default basemap source, constructed with no
arguments. -/
inductive OsmSource where
  | mk : OsmSource
  deriving DecidableEq, Repr

/-- `new XyzSource({...})` constructor options. -/
structure XyzSource where
  url : JVal
  deriving DecidableEq, Repr

/-- `new VectorSource({...})` constructor options. -/
structure VectorSource where
  url : JVal
  format : FormatInst
  attributions : JVal
  deriving DecidableEq, Repr

/-- `new VectorTileSource({...})` constructor options. -/
structure VectorTileSource where
  url : JVal
  format : FormatInst
  attributions : JVal
  deriving DecidableEq, Repr

/-- `new TileLayer({...})` options as passed by `createWmsLayer`. -/
structure WmsLayer where
  name : JVal
  lid : JVal
  displayInLayerList : JVal
  selectable : JVal
  extent : JVal
  visible : JVal
  opacity : JVal
  source : TileWmsSource
  deriving DecidableEq, Repr

/-- `new TileLayer({...})` options as passed by `createXyzLayer`
(note: no `extent` option is passed). -/
structure XyzLayer where
  name : JVal
  lid : JVal
  displayInLayerList : JVal
  selectable : JVal
  visible : JVal
  opacity : JVal
  source : XyzSource
  deriving DecidableEq, Repr

/-- `new TileLayer({...})` options as passed by `createOsmLayer`
(note: no `extent` option is passed). -/
structure OsmLayer where
  name : JVal
  lid : JVal
  displayInLayerList : JVal
  selectable : JVal
  visible : JVal
  opacity : JVal
  source : OsmSource
  deriving DecidableEq, Repr

/-- `new VectorLayer({...})` options as passed by `createVectorLayer`. -/
structure VecLayer where
  name : JVal
  lid : JVal
  displayInLayerList : JVal
  selectable : JVal
  extent : JVal
  visible : JVal
  opacity : JVal
  source : VectorSource
  style : StyleObj
  styleSelected : StyleObj
  hoverable : JVal
  hoverAttribute : JVal
  deriving DecidableEq, Repr

/-- `new VectorTileLayer({...})` options as passed by
`createVectorTileLayer` (note: no `extent` option is passed). -/
structure VtLayer where
  name : JVal
  lid : JVal
  displayInLayerList : JVal
  selectable : JVal
  visible : JVal
  opacity : JVal
  source : VectorTileSource
  style : StyleObj
  hoverable : JVal
  hoverAttribute : JVal
  deriving DecidableEq, Repr

/-- A produced OpenLayers layer instance, one variant per builder. -/
inductive Layer where
  | wms : WmsLayer → Layer
  | xyz : XyzLayer → Layer
  | osm : OsmLayer → Layer
  | vector : VecLayer → Layer
  | vectorTile : VtLayer → Layer
  deriving DecidableEq, Repr

/-- Reading the layer's `lid` option back. -/
def Layer.lid : Layer → JVal
  | Layer.wms l => l.lid
  | Layer.xyz l => l.lid
  | Layer.osm l => l.lid
  | Layer.vector l => l.lid
  | Layer.vectorTile l => l.lid

/-- Reading the layer's `name` option back. -/
def Layer.name : Layer → JVal
  | Layer.wms l => l.name
  | Layer.xyz l => l.name
  | Layer.osm l => l.name
  | Layer.vector l => l.name
  | Layer.vectorTile l => l.name

/-- Reading the layer's `visible` option back. -/
def Layer.visible : Layer → JVal
  | Layer.wms l => l.visible
  | Layer.xyz l => l.visible
  | Layer.osm l => l.visible
  | Layer.vector l => l.visible
  | Layer.vectorTile l => l.visible

/-- Reading the layer's `opacity` option back. -/
def Layer.opacity : Layer → JVal
  | Layer.wms l => l.opacity
  | Layer.xyz l => l.opacity
  | Layer.osm l => l.opacity
  | Layer.vector l => l.opacity
  | Layer.vectorTile l => l.opacity

/-- Reading the layer's `selectable` option back. -/
def Layer.selectable : Layer → JVal
  | Layer.wms l => l.selectable
  | Layer.xyz l => l.selectable
  | Layer.osm l => l.selectable
  | Layer.vector l => l.selectable
  | Layer.vectorTile l => l.selectable

/-- Reading the layer's `extent` option back.  The XYZ, OSM and vector-tile
builders pass no `extent` option, so reading it back on those layers yields
JS `undefined`. -/
def Layer.extent : Layer → JVal
  | Layer.wms l => l.extent
  | Layer.xyz _ => JVal.undef
  | Layer.osm _ => JVal.undef
  | Layer.vector l => l.extent
  | Layer.vectorTile _ => JVal.undef

/-- Errors a factory call can end in: the `TypeError` thrown by invoking a
missing format constructor, or exhaustion of the recursion fuel (an artifact
of the embedding, never reached for acyclic manifests with enough fuel). -/
inductive Err where
  | typeError : Err
  | fuelOut : Err
  deriving DecidableEq, Repr

/-- The JS value a `getInstance` promise can resolve with: `null`, a layer
instance, or (for collections, possibly nested) an array of such values. -/
inductive JsLayerVal where
  | nul : JsLayerVal
  | layer : Layer → JsLayerVal
  | arr : List JsLayerVal → JsLayerVal

/-- Observable outcome of a `getInstance` call: the advanced draw counter,
the config object after the call (the source mutates `lConf`), and the
resolved value or error. -/
structure CallResult where
  counter : Nat
  conf : Config
  result : Except Err JsLayerVal

/-- `randomId`: `Math.random().toString(36).substr(2, 5)`, as a function of
the draw string produced by `toString(36)` (which is `"0"` for the draw 0,
and `"0."` followed by the base-36 fractional digits otherwise). -/
def randomId (draw : String) : String :=
  ((draw.toList.drop 2).take 5).asString

/-- `createWmsLayer` from the source. -/
def createWmsLayer (lConf : Config) : WmsLayer :=
  { name := lConf.name
    lid := lConf.lid
    displayInLayerList := lConf.displayInLayerList
    selectable := jsOr lConf.selectable (JVal.bool false)
    extent := lConf.extent
    visible := lConf.visible
    opacity := lConf.opacity
    source :=
      { url := lConf.url
        paramsLAYERS := lConf.layers
        paramsTILED := lConf.tiled
        serverType := lConf.serverType
        attributions := lConf.attributions } }

/-- `createXyzLayer` from the source. -/
def createXyzLayer (lConf : Config) : XyzLayer :=
  { name := lConf.name
    lid := lConf.lid
    displayInLayerList := lConf.displayInLayerList
    selectable := jsOr lConf.selectable (JVal.bool false)
    visible := lConf.visible
    opacity := lConf.opacity
    source := { url := lConf.url } }

/-- `createOsmLayer` from the source: always the default basemap source,
the config's `url` is never read. -/
def createOsmLayer (lConf : Config) : OsmLayer :=
  { name := lConf.name
    lid := lConf.lid
    displayInLayerList := lConf.displayInLayerList
    selectable := jsOr lConf.selectable (JVal.bool false)
    visible := lConf.visible
    opacity := lConf.opacity
    source := OsmSource.mk }

/-- `createVectorLayer` from the source.  `new this.formatMapping[lConf.format](lConf.formatConfig)`
throws a `TypeError` when the format lookup yields `undefined`. -/
def createVectorLayer (lConf : Config) : Except Err VecLayer :=
  match formatMapping lConf.format with
  | none => Except.error Err.typeError
  | some fc =>
    Except.ok
      { name := lConf.name
        lid := lConf.lid
        displayInLayerList := lConf.displayInLayerList
        selectable := jsOr lConf.selectable (JVal.bool false)
        extent := lConf.extent
        visible := lConf.visible
        opacity := lConf.opacity
        source :=
          { url := lConf.url
            format := { ctor := fc, cfg := lConf.formatConfig }
            attributions := lConf.attributions }
        style := OlStyleFactory.getInstance lConf.style
        styleSelected := OlStyleFactory.getInstance lConf.styleSelected
        hoverable := lConf.hoverable
        hoverAttribute := lConf.hoverAttribute }

/-- `createVectorTileLayer` from the source.  The format constructor is
invoked with no argument here, and no `styleSelected` option is passed. -/
def createVectorTileLayer (lConf : Config) : Except Err VtLayer :=
  match formatMapping lConf.format with
  | none => Except.error Err.typeError
  | some fc =>
    Except.ok
      { name := lConf.name
        lid := lConf.lid
        displayInLayerList := lConf.displayInLayerList
        selectable := jsOr lConf.selectable (JVal.bool false)
        visible := lConf.visible
        opacity := lConf.opacity
        source :=
          { url := lConf.url
            format := { ctor := fc, cfg := JVal.undef }
            attributions := lConf.attributions }
        style := OlStyleFactory.getInstance lConf.style
        hoverable := lConf.hoverable
        hoverAttribute := lConf.hoverAttribute }

/-- `Promise.all` over already-settled results in array order: the first
rejection (in array order) rejects the whole, otherwise all values. -/
def sequenceResults : List (Except Err JsLayerVal) → Except Err (List JsLayerVal)
  | [] => Except.ok []
  | Except.error e :: _ => Except.error e
  | Except.ok v :: rs =>
    match sequenceResults rs with
    | Except.error e => Except.error e
    | Except.ok vs => Except.ok (v :: vs)

/-- The body of the `response.map(...)` in `createLayersFromCollection`:
each manifest entry has its `lid` overwritten with its `name` and is then
passed to `getInstance` (here the parameter `g`), threading the draw
counter left to right. -/
def instEntriesWith (g : Nat → Config → CallResult) :
    Nat → List Config → Nat × List (Except Err JsLayerVal)
  | k, [] => (k, [])
  | k, e :: es =>
    let r := g k { e with lid := e.name }
    let rest := instEntriesWith g r.counter es
    (rest.1, r.result :: rest.2)

/-- `createLayersFromCollection` from the source: fetch the manifest from
the collection's `url`, instantiate every entry, and resolve with the array
once every entry has resolved (any rejection rejects the whole). -/
def createLayersFromCollection (fetch : JVal → List Config)
    (g : Nat → Config → CallResult) (k : Nat) (url : JVal) :
    Nat × Except Err (List JsLayerVal) :=
  let r := instEntriesWith g k (fetch url)
  (r.1, sequenceResults r.2)

/-- The body of `getInstance`, parameterized by the handler for the
`LAYERCOLLECTION` branch.  First the LID is applied if not existent
(mutating `lConf`), then the if/else chain dispatches on `lConf.type`;
any unrecognized type falls through to `null`. -/
def getInstanceCore (onColl : Nat → JVal → Nat × Except Err (List JsLayerVal))
    (rnd : Nat → String) (k : Nat) (lConf : Config) : CallResult :=
  let k1 := if truthy lConf.lid then k else k + 1
  let c1 : Config :=
    { lConf with lid := if truthy lConf.lid then lConf.lid else JVal.str (randomId (rnd k)) }
  if lConf.type = JVal.str "WMS" then
    { counter := k1, conf := c1,
      result := Except.ok (JsLayerVal.layer (Layer.wms (createWmsLayer c1))) }
  else if lConf.type = JVal.str "XYZ" then
    { counter := k1, conf := c1,
      result := Except.ok (JsLayerVal.layer (Layer.xyz (createXyzLayer c1))) }
  else if lConf.type = JVal.str "OSM" then
    { counter := k1, conf := c1,
      result := Except.ok (JsLayerVal.layer (Layer.osm (createOsmLayer c1))) }
  else if lConf.type = JVal.str "VECTOR" then
    { counter := k1, conf := c1,
      result := (createVectorLayer c1).map (fun l => JsLayerVal.layer (Layer.vector l)) }
  else if lConf.type = JVal.str "VECTORTILE" then
    { counter := k1, conf := c1,
      result := (createVectorTileLayer c1).map (fun l => JsLayerVal.layer (Layer.vectorTile l)) }
  else if lConf.type = JVal.str "LAYERCOLLECTION" then
    let r := onColl k1 lConf.url
    { counter := r.1, conf := c1, result := r.2.map JsLayerVal.arr }
  else
    { counter := k1, conf := c1, result := Except.ok JsLayerVal.nul }

/-- `getInstance` from the source, with explicit fuel bounding the depth of
nested collection loading (the JS code would simply not terminate on a
cyclic manifest graph). -/
def getInstance (fetch : JVal → List Config) (rnd : Nat → String) :
    Nat → Nat → Config → CallResult
  | 0 => getInstanceCore (fun k1 _ => (k1, Except.error Err.fuelOut)) rnd
  | fuel + 1 =>
    getInstanceCore (createLayersFromCollection fetch (getInstance fetch rnd fuel)) rnd

/-- Observer: the `lid` of a call that resolved with a single layer. -/
def resultLid : Except Err JsLayerVal → Option JVal
  | Except.ok (JsLayerVal.layer l) => some (Layer.lid l)
  | _ => none

/-- Observer: the `extent` of a call that resolved with a single layer. -/
def resultExtent : Except Err JsLayerVal → Option JVal
  | Except.ok (JsLayerVal.layer l) => some (Layer.extent l)
  | _ => none

/-- The five recognized non-collection `type` discriminators. -/
def isNonCollType (v : JVal) : Bool :=
  decide (v = JVal.str "WMS" ∨ v = JVal.str "XYZ" ∨ v = JVal.str "OSM" ∨
    v = JVal.str "VECTOR" ∨ v = JVal.str "VECTORTILE")

/-- The six recognized `type` discriminators. -/
def isKnownType (v : JVal) : Bool :=
  decide (v = JVal.str "WMS" ∨ v = JVal.str "XYZ" ∨ v = JVal.str "OSM" ∨
    v = JVal.str "VECTOR" ∨ v = JVal.str "VECTORTILE" ∨ v = JVal.str "LAYERCOLLECTION")

/-- A well-formed collection manifest entry: a truthy `name`, a recognized
non-collection `type`, and a supported `format` when the type needs one. -/
def goodEntry (e : Config) : Bool :=
  truthy e.name && isNonCollType e.type &&
    (if e.type = JVal.str "VECTOR" ∨ e.type = JVal.str "VECTORTILE" then
      (formatMapping e.format).isSome
    else true)

/-! Helper lemmas -/

theorem getInstance_eq_core (fetch : JVal → List Config) (rnd : Nat → String) (fuel : Nat) :
    ∃ onColl, getInstance fetch rnd fuel = getInstanceCore onColl rnd := by
  cases fuel with
  | zero => exact ⟨_, rfl⟩
  | succ f => exact ⟨_, rfl⟩

theorem getInstanceCore_conf (onColl : Nat → JVal → Nat × Except Err (List JsLayerVal))
    (rnd : Nat → String) (k : Nat) (c : Config) :
    (getInstanceCore onColl rnd k c).conf =
      { c with lid := if truthy c.lid then c.lid else JVal.str (randomId (rnd k)) } := by
  unfold getInstanceCore
  repeat' split
  all_goals rfl

theorem getInstanceCore_nonColl (onColl : Nat → JVal → Nat × Except Err (List JsLayerVal))
    (rnd : Nat → String) (k : Nat) (c : Config)
    (h1 : isNonCollType c.type = true)
    (h2 : (c.type = JVal.str "VECTOR" ∨ c.type = JVal.str "VECTORTILE") →
      (formatMapping c.format).isSome = true) :
    ∃ l : Layer,
      getInstanceCore onColl rnd k c =
        { counter := if truthy c.lid then k else k + 1
          conf := { c with lid := if truthy c.lid then c.lid else JVal.str (randomId (rnd k)) }
          result := Except.ok (JsLayerVal.layer l) } ∧
      Layer.lid l = (if truthy c.lid then c.lid else JVal.str (randomId (rnd k))) ∧
      Layer.name l = c.name ∧
      Layer.visible l = c.visible ∧
      Layer.opacity l = c.opacity ∧
      Layer.selectable l = jsOr c.selectable (JVal.bool false) ∧
      ((c.type = JVal.str "WMS" ∨ c.type = JVal.str "VECTOR") → Layer.extent l = c.extent) ∧
      ((c.type = JVal.str "XYZ" ∨ c.type = JVal.str "OSM" ∨ c.type = JVal.str "VECTORTILE") →
        Layer.extent l = JVal.undef) := by
  have h1' : c.type = JVal.str "WMS" ∨ c.type = JVal.str "XYZ" ∨ c.type = JVal.str "OSM" ∨
      c.type = JVal.str "VECTOR" ∨ c.type = JVal.str "VECTORTILE" := by
    simpa [isNonCollType] using h1
  rcases h1' with ht | ht | ht | ht | ht
  · refine ⟨Layer.wms (createWmsLayer
      { c with lid := if truthy c.lid then c.lid else JVal.str (randomId (rnd k)) }),
      ?_, rfl, rfl, rfl, rfl, rfl, fun _ => rfl, ?_⟩
    · simp [getInstanceCore, ht]
    · intro h'
      rcases h' with h' | h' | h' <;> exact absurd (ht.symm.trans h') (by decide)
  · refine ⟨Layer.xyz (createXyzLayer
      { c with lid := if truthy c.lid then c.lid else JVal.str (randomId (rnd k)) }),
      ?_, rfl, rfl, rfl, rfl, rfl, ?_, fun _ => rfl⟩
    · simp [getInstanceCore, ht]
    · intro h'
      rcases h' with h' | h' <;> exact absurd (ht.symm.trans h') (by decide)
  · refine ⟨Layer.osm (createOsmLayer
      { c with lid := if truthy c.lid then c.lid else JVal.str (randomId (rnd k)) }),
      ?_, rfl, rfl, rfl, rfl, rfl, ?_, fun _ => rfl⟩
    · simp [getInstanceCore, ht]
    · intro h'
      rcases h' with h' | h' <;> exact absurd (ht.symm.trans h') (by decide)
  · obtain ⟨fc, hfc⟩ := Option.isSome_iff_exists.mp (h2 (Or.inl ht))
    refine ⟨Layer.vector
      { name := c.name
        lid := if truthy c.lid then c.lid else JVal.str (randomId (rnd k))
        displayInLayerList := c.displayInLayerList
        selectable := jsOr c.selectable (JVal.bool false)
        extent := c.extent
        visible := c.visible
        opacity := c.opacity
        source :=
          { url := c.url
            format := { ctor := fc, cfg := c.formatConfig }
            attributions := c.attributions }
        style := OlStyleFactory.getInstance c.style
        styleSelected := OlStyleFactory.getInstance c.styleSelected
        hoverable := c.hoverable
        hoverAttribute := c.hoverAttribute },
      ?_, rfl, rfl, rfl, rfl, rfl, fun _ => rfl, ?_⟩
    · simp [getInstanceCore, ht, createVectorLayer, hfc, Except.map]
    · intro h'
      rcases h' with h' | h' | h' <;> exact absurd (ht.symm.trans h') (by decide)
  · obtain ⟨fc, hfc⟩ := Option.isSome_iff_exists.mp (h2 (Or.inr ht))
    refine ⟨Layer.vectorTile
      { name := c.name
        lid := if truthy c.lid then c.lid else JVal.str (randomId (rnd k))
        displayInLayerList := c.displayInLayerList
        selectable := jsOr c.selectable (JVal.bool false)
        visible := c.visible
        opacity := c.opacity
        source :=
          { url := c.url
            format := { ctor := fc, cfg := JVal.undef }
            attributions := c.attributions }
        style := OlStyleFactory.getInstance c.style
        hoverable := c.hoverable
        hoverAttribute := c.hoverAttribute },
      ?_, rfl, rfl, rfl, rfl, rfl, ?_, fun _ => rfl⟩
    · simp [getInstanceCore, ht, createVectorTileLayer, hfc, Except.map]
    · intro h'
      rcases h' with h' | h' <;> exact absurd (ht.symm.trans h') (by decide)

theorem getInstance_nonColl (fetch : JVal → List Config) (rnd : Nat → String)
    (fuel k : Nat) (c : Config)
    (h1 : isNonCollType c.type = true)
    (h2 : (c.type = JVal.str "VECTOR" ∨ c.type = JVal.str "VECTORTILE") →
      (formatMapping c.format).isSome = true) :
    ∃ l : Layer,
      getInstance fetch rnd fuel k c =
        { counter := if truthy c.lid then k else k + 1
          conf := { c with lid := if truthy c.lid then c.lid else JVal.str (randomId (rnd k)) }
          result := Except.ok (JsLayerVal.layer l) } ∧
      Layer.lid l = (if truthy c.lid then c.lid else JVal.str (randomId (rnd k))) ∧
      Layer.name l = c.name ∧
      Layer.visible l = c.visible ∧
      Layer.opacity l = c.opacity ∧
      Layer.selectable l = jsOr c.selectable (JVal.bool false) ∧
      ((c.type = JVal.str "WMS" ∨ c.type = JVal.str "VECTOR") → Layer.extent l = c.extent) ∧
      ((c.type = JVal.str "XYZ" ∨ c.type = JVal.str "OSM" ∨ c.type = JVal.str "VECTORTILE") →
        Layer.extent l = JVal.undef) := by
  cases fuel with
  | zero => exact getInstanceCore_nonColl _ rnd k c h1 h2
  | succ f => exact getInstanceCore_nonColl _ rnd k c h1 h2

theorem sequenceResults_map_ok (vs : List JsLayerVal) :
    sequenceResults (vs.map Except.ok) = Except.ok vs := by
  induction vs with
  | nil => rfl
  | cons v vs ih => simp [sequenceResults, ih]

theorem instEntries_good (fetch : JVal → List Config) (rnd : Nat → String) (f : Nat)
    (ms : List Config) (k : Nat)
    (h : ∀ e ∈ ms, goodEntry e = true) :
    ∃ ls : List Layer,
      instEntriesWith (getInstance fetch rnd f) k ms
        = (k, ls.map (fun l => Except.ok (JsLayerVal.layer l))) ∧
      ls.length = ms.length ∧
      ∀ i : Nat, (ls.get? i).map Layer.lid = (ms.get? i).map Config.name := by
  induction ms generalizing k with
  | nil => exact ⟨[], rfl, rfl, fun i => rfl⟩
  | cons e es ih =>
    have hge := h e (List.mem_cons_self e es)
    have hes : ∀ x ∈ es, goodEntry x = true := fun x hx => h x (List.mem_cons_of_mem _ hx)
    rw [goodEntry, Bool.and_eq_true, Bool.and_eq_true] at hge
    obtain ⟨⟨hname, htype⟩, hfmt⟩ := hge
    have h2e : (Config.type { e with lid := e.name } = JVal.str "VECTOR" ∨
        Config.type { e with lid := e.name } = JVal.str "VECTORTILE") →
        (formatMapping (Config.format { e with lid := e.name })).isSome = true := by
      intro hor
      rw [if_pos hor] at hfmt
      exact hfmt
    obtain ⟨l, heq, hlid, _, _, _, _, _, _⟩ :=
      getInstance_nonColl fetch rnd f k { e with lid := e.name } htype h2e
    have htl : truthy (Config.lid { e with lid := e.name }) = true := hname
    obtain ⟨ls, hls, hlen, hidx⟩ := ih k hes
    refine ⟨l :: ls, ?_, by simp [hlen], ?_⟩
    · rw [instEntriesWith, heq]
      simp only [htl, if_pos]
      rw [hls]
      rfl
    · intro i
      cases i with
      | zero =>
        show some (Layer.lid l) = some (Config.name e)
        rw [hlid, if_pos htl]
      | succ n =>
        simpa using hidx n

theorem getInstanceCore_coll (onColl : Nat → JVal → Nat × Except Err (List JsLayerVal))
    (rnd : Nat → String) (k : Nat) (c : Config)
    (ht : c.type = JVal.str "LAYERCOLLECTION") :
    getInstanceCore onColl rnd k c =
      { counter := (onColl (if truthy c.lid then k else k + 1) c.url).1
        conf := { c with lid := if truthy c.lid then c.lid else JVal.str (randomId (rnd k)) }
        result := (onColl (if truthy c.lid then k else k + 1) c.url).2.map JsLayerVal.arr } := by
  simp [getInstanceCore, ht]

/-- C4 (confirmed): for a `LAYERCOLLECTION` config whose fetched manifest is
a list of well-formed layer configs (truthy `name`, recognized
non-collection `type`, supported `format` where needed), the result is an
array of the same length as the manifest, in manifest order, in which the
i-th layer is built from the i-th entry with its `lid` forced to that
entry's `name`. -/
theorem claim_C4 (fetch : JVal → List Config) (rnd : Nat → String) (f k : Nat) (c : Config)
    (ht : c.type = JVal.str "LAYERCOLLECTION")
    (h : ∀ e ∈ fetch c.url, goodEntry e = true) :
    ∃ ls : List Layer,
      (getInstance fetch rnd (f + 1) k c).result
        = Except.ok (JsLayerVal.arr (ls.map JsLayerVal.layer)) ∧
      ls.length = (fetch c.url).length ∧
      ∀ i : Nat, (ls.get? i).map Layer.lid = ((fetch c.url).get? i).map Config.name := by
  have hrun : getInstance fetch rnd (f + 1) k c =
      getInstanceCore (createLayersFromCollection fetch (getInstance fetch rnd f)) rnd k c := rfl
  obtain ⟨ls, h1, h2, h3⟩ :=
    instEntries_good fetch rnd f (fetch c.url) (if truthy c.lid then k else k + 1) h
  refine ⟨ls, ?_, h2, h3⟩
  rw [hrun, getInstanceCore_coll _ _ _ _ ht]
  show (createLayersFromCollection fetch (getInstance fetch rnd f)
      (if truthy c.lid then k else k + 1) c.url).2.map JsLayerVal.arr = _
  rw [createLayersFromCollection]
  simp only [h1]
  have hmap : ls.map (fun l => (Except.ok (JsLayerVal.layer l) : Except Err JsLayerVal))
      = (ls.map JsLayerVal.layer).map Except.ok := by
    simp [List.map_map, Function.comp]
  rw [hmap, sequenceResults_map_ok]
  rfl

/-- C4 witness: the spec's concrete manifest
`[{name: "a", type: "OSM"}, {name: "b", type: "OSM"}]` yields two layers
with identifiers `"a"` then `"b"`, in manifest order. -/
theorem claim_C4_witness :
    ∃ ls : List Layer,
      (getInstance
          (fun _ => [{ name := JVal.str "a", type := JVal.str "OSM" },
                     { name := JVal.str "b", type := JVal.str "OSM" }])
          (fun _ => "0.abcde") 1 0
          { type := JVal.str "LAYERCOLLECTION", url := JVal.str "layers.json" }).result
        = Except.ok (JsLayerVal.arr (ls.map JsLayerVal.layer)) ∧
      ls.length = 2 ∧
      ∀ i : Nat, (ls.get? i).map Layer.lid
        = ([{ name := JVal.str "a", type := JVal.str "OSM" },
            { name := JVal.str "b", type := JVal.str "OSM" }].get? i).map Config.name :=
  claim_C4
    (fun _ => [{ name := JVal.str "a", type := JVal.str "OSM" },
               { name := JVal.str "b", type := JVal.str "OSM" }])
    (fun _ => "0.abcde") 0 0
    { type := JVal.str "LAYERCOLLECTION", url := JVal.str "layers.json" }
    rfl (by decide)

theorem randomId_length (draw : String) (h : 7 ≤ draw.length) :
    (randomId draw).length = 5 := by
  have hr : (randomId draw).length = ((draw.toList.drop 2).take 5).length := rfl
  have hd : draw.toList.length = draw.length := rfl
  rw [hr, List.length_take, List.length_drop, hd]
  omega

theorem randomId_ne_empty (draw : String) (h : 7 ≤ draw.length) :
    randomId draw ≠ "" := by
  intro he
  have h5 := randomId_length draw h
  rw [he] at h5
  simp at h5

/-- C1 (corrected): for every config with a recognized non-collection type
(provided, for VECTOR/VECTORTILE, that the format is supported), `getInstance`
returns a non-null layer whose `lid` equals the input `lid` when truthy and
otherwise equals the string produced by `randomId`; when the random draw's
base-36 expansion has at least 5 fractional digits (draw string length ≥ 7),
that identifier is exactly 5 characters and the layer's `lid` is truthy
(non-empty). -/
theorem claim_C1 (fetch : JVal → List Config) (rnd : Nat → String) (fuel k : Nat) (c : Config)
    (h1 : isNonCollType c.type = true)
    (h2 : (c.type = JVal.str "VECTOR" ∨ c.type = JVal.str "VECTORTILE") →
      (formatMapping c.format).isSome = true)
    (hdraw : 7 ≤ (rnd k).length) :
    ∃ l : Layer,
      (getInstance fetch rnd fuel k c).result = Except.ok (JsLayerVal.layer l) ∧
      Layer.lid l = (if truthy c.lid then c.lid else JVal.str (randomId (rnd k))) ∧
      truthy (Layer.lid l) = true ∧
      (truthy c.lid = false → (randomId (rnd k)).length = 5) := by
  obtain ⟨l, heq, hlid, _, _, _, _, _, _⟩ := getInstance_nonColl fetch rnd fuel k c h1 h2
  refine ⟨l, by rw [heq], hlid, ?_, fun _ => randomId_length _ hdraw⟩
  by_cases hc : truthy c.lid = true
  · rw [hlid, if_pos hc]
    exact hc
  · rw [hlid, if_neg hc]
    exact decide_eq_true (randomId_ne_empty _ hdraw)

/-- C1 counterexample: `Math.random()` may return 0, whose `toString(36)` is
`"0"`; then `randomId` returns the empty string and the produced layer
carries an empty (falsy) `lid`, refuting both the 5-character shape and the
non-empty-lid invariant claimed for every case. -/
theorem claim_C1_cex :
    resultLid (getInstance (fun _ => []) (fun _ => "0") 0 0 { type := JVal.str "OSM" }).result
        = some (JVal.str "") ∧
      truthy (JVal.str "") = false := by decide

/-- C1 witness: an XYZ config without `lid`, with a draw of 6 base-36
fractional digits, yields a 5-character truthy identifier. -/
theorem claim_C1_witness :
    ∃ l : Layer,
      (getInstance (fun _ => []) (fun _ => "0.abcdef") 0 0 { type := JVal.str "XYZ" }).result
        = Except.ok (JsLayerVal.layer l) ∧
      Layer.lid l = (if truthy (Config.lid { type := JVal.str "XYZ" }) then
          Config.lid { type := JVal.str "XYZ" }
        else JVal.str (randomId "0.abcdef")) ∧
      truthy (Layer.lid l) = true ∧
      (truthy (Config.lid { type := JVal.str "XYZ" }) = false →
        (randomId "0.abcdef").length = 5) :=
  claim_C1 (fun _ => []) (fun _ => "0.abcdef") 0 0 { type := JVal.str "XYZ" }
    (by decide) (by decide) (by decide)

/-- C2 (confirmed): for every config whose `type` is not one of the six
recognized discriminators (including an absent type), `getInstance` returns
null and raises no error, for any fuel, draw stream and fetch environment. -/
theorem claim_C2 (fetch : JVal → List Config) (rnd : Nat → String) (fuel k : Nat) (c : Config)
    (h : isKnownType c.type = false) :
    (getInstance fetch rnd fuel k c).result = Except.ok JsLayerVal.nul := by
  have h' : ¬(c.type = JVal.str "WMS" ∨ c.type = JVal.str "XYZ" ∨ c.type = JVal.str "OSM" ∨
      c.type = JVal.str "VECTOR" ∨ c.type = JVal.str "VECTORTILE" ∨
      c.type = JVal.str "LAYERCOLLECTION") := by
    simpa [isKnownType] using h
  push_neg at h'
  obtain ⟨hw, hx, ho, hv, hvt, hl⟩ := h'
  obtain ⟨onColl, he⟩ := getInstance_eq_core fetch rnd fuel
  rw [he]
  simp [getInstanceCore, hw, hx, ho, hv, hvt, hl]

/-- C2 witness: a config with `type: "UNKNOWN"` resolves to null without
error. -/
theorem claim_C2_witness :
    (getInstance (fun _ => []) (fun _ => "0.abcde") 0 0 { type := JVal.str "UNKNOWN" }).result
      = Except.ok JsLayerVal.nul :=
  claim_C2 (fun _ => []) (fun _ => "0.abcde") 0 0 { type := JVal.str "UNKNOWN" } (by decide)

/-- C3 (corrected): `getInstance` is not free of config mutation: it leaves
every field of the input config unchanged except `lid`, which is kept when
initially truthy and overwritten with `randomId`'s output when falsy.  (In
the collection path each fetched manifest entry is likewise mutated: its
`lid` is overwritten with its `name` before instantiation, see
`instEntriesWith`.) -/
theorem claim_C3 (fetch : JVal → List Config) (rnd : Nat → String) (fuel k : Nat) (c : Config) :
    (getInstance fetch rnd fuel k c).conf =
      { c with lid := if truthy c.lid then c.lid else JVal.str (randomId (rnd k)) } := by
  obtain ⟨onColl, he⟩ := getInstance_eq_core fetch rnd fuel
  rw [he, getInstanceCore_conf]

/-- C3 counterexample: a WMS config without `lid` does not come back
unchanged from `getInstance`: its `lid` field has been assigned. -/
theorem claim_C3_cex :
    (getInstance (fun _ => []) (fun _ => "0.abcde") 0 0
        ({ type := JVal.str "WMS" } : Config)).conf
      ≠ ({ type := JVal.str "WMS" } : Config) := by decide

/-- C5 (corrected): for every config with a recognized non-collection type
(with a supported format where one is needed), reading back the produced
layer's `visible` and `opacity` yields exactly the config's values; `extent`
round-trips for WMS and VECTOR layers, but the XYZ, OSM and VECTORTILE
builders pass no extent at all, so reading it back yields undefined
regardless of the config. -/
theorem claim_C5 (fetch : JVal → List Config) (rnd : Nat → String) (fuel k : Nat) (c : Config)
    (h1 : isNonCollType c.type = true)
    (h2 : (c.type = JVal.str "VECTOR" ∨ c.type = JVal.str "VECTORTILE") →
      (formatMapping c.format).isSome = true) :
    ∃ l : Layer,
      (getInstance fetch rnd fuel k c).result = Except.ok (JsLayerVal.layer l) ∧
      Layer.visible l = c.visible ∧
      Layer.opacity l = c.opacity ∧
      ((c.type = JVal.str "WMS" ∨ c.type = JVal.str "VECTOR") → Layer.extent l = c.extent) ∧
      ((c.type = JVal.str "XYZ" ∨ c.type = JVal.str "OSM" ∨ c.type = JVal.str "VECTORTILE") →
        Layer.extent l = JVal.undef) := by
  obtain ⟨l, heq, _, _, hvis, hop, _, hext1, hext2⟩ :=
    getInstance_nonColl fetch rnd fuel k c h1 h2
  exact ⟨l, by rw [heq], hvis, hop, hext1, hext2⟩

/-- C5 counterexample: an XYZ config passing `extent: [1,2,3,4]` produces a
layer whose extent reads back as undefined, not the value passed in. -/
theorem claim_C5_cex :
    resultExtent (getInstance (fun _ => []) (fun _ => "0.abcde") 0 0
          { type := JVal.str "XYZ", lid := JVal.str "x", visible := JVal.bool true,
            opacity := JVal.num 1, extent := JVal.arr [1, 2, 3, 4] }).result
        = some JVal.undef ∧
      JVal.undef ≠ JVal.arr [1, 2, 3, 4] := by decide

/-- C5 witness: a WMS config round-trips `visible`, `opacity` and `extent`. -/
theorem claim_C5_witness :
    ∃ l : Layer,
      (getInstance (fun _ => []) (fun _ => "0.abcde") 0 0
          { type := JVal.str "WMS", lid := JVal.str "w", visible := JVal.bool true,
            opacity := JVal.num 1, extent := JVal.arr [1, 2, 3, 4] }).result
        = Except.ok (JsLayerVal.layer l) ∧
      Layer.visible l = JVal.bool true ∧
      Layer.opacity l = JVal.num 1 ∧
      ((JVal.str "WMS" = JVal.str "WMS" ∨ JVal.str "WMS" = JVal.str "VECTOR") →
        Layer.extent l = JVal.arr [1, 2, 3, 4]) ∧
      ((JVal.str "WMS" = JVal.str "XYZ" ∨ JVal.str "WMS" = JVal.str "OSM" ∨
          JVal.str "WMS" = JVal.str "VECTORTILE") →
        Layer.extent l = JVal.undef) :=
  claim_C5 (fun _ => []) (fun _ => "0.abcde") 0 0
    { type := JVal.str "WMS", lid := JVal.str "w", visible := JVal.bool true,
      opacity := JVal.num 1, extent := JVal.arr [1, 2, 3, 4] }
    (by decide) (by decide)

/-- C6 (confirmed): for a VECTOR config, the source's format parser is the
constructor found for `config.format` in the static table, applied to
`config.formatConfig`. -/
theorem claim_C6 (fetch : JVal → List Config) (rnd : Nat → String) (fuel k : Nat) (c : Config)
    (fc : FormatCtor)
    (ht : c.type = JVal.str "VECTOR")
    (hf : formatMapping c.format = some fc) :
    ∃ vl : VecLayer,
      (getInstance fetch rnd fuel k c).result
        = Except.ok (JsLayerVal.layer (Layer.vector vl)) ∧
      vl.source.format = { ctor := fc, cfg := c.formatConfig } := by
  obtain ⟨onColl, he⟩ := getInstance_eq_core fetch rnd fuel
  rw [he]
  refine ⟨{ name := c.name
            lid := if truthy c.lid then c.lid else JVal.str (randomId (rnd k))
            displayInLayerList := c.displayInLayerList
            selectable := jsOr c.selectable (JVal.bool false)
            extent := c.extent
            visible := c.visible
            opacity := c.opacity
            source :=
              { url := c.url
                format := { ctor := fc, cfg := c.formatConfig }
                attributions := c.attributions }
            style := OlStyleFactory.getInstance c.style
            styleSelected := OlStyleFactory.getInstance c.styleSelected
            hoverable := c.hoverable
            hoverAttribute := c.hoverAttribute }, ?_, rfl⟩
  simp [getInstanceCore, ht, createVectorLayer, hf, Except.map]

/-- C6 witness: format `"GeoJSON"` yields the GeoJSON parser and format
`"KML"` yields the KML parser, each applied to the config's
`formatConfig`. -/
theorem claim_C6_witness :
    (∃ vl : VecLayer,
      (getInstance (fun _ => []) (fun _ => "0.abcde") 0 0
          { type := JVal.str "VECTOR", lid := JVal.str "v", format := JVal.str "GeoJSON",
            formatConfig := JVal.str "geo-options" }).result
        = Except.ok (JsLayerVal.layer (Layer.vector vl)) ∧
      vl.source.format = { ctor := FormatCtor.GeoJSON, cfg := JVal.str "geo-options" }) ∧
    (∃ vl : VecLayer,
      (getInstance (fun _ => []) (fun _ => "0.abcde") 0 0
          { type := JVal.str "VECTOR", lid := JVal.str "v", format := JVal.str "KML" }).result
        = Except.ok (JsLayerVal.layer (Layer.vector vl)) ∧
      vl.source.format = { ctor := FormatCtor.KML, cfg := JVal.undef }) :=
  ⟨claim_C6 (fun _ => []) (fun _ => "0.abcde") 0 0
      { type := JVal.str "VECTOR", lid := JVal.str "v", format := JVal.str "GeoJSON",
        formatConfig := JVal.str "geo-options" } FormatCtor.GeoJSON rfl rfl,
    claim_C6 (fun _ => []) (fun _ => "0.abcde") 0 0
      { type := JVal.str "VECTOR", lid := JVal.str "v", format := JVal.str "KML" }
      FormatCtor.KML rfl rfl⟩

/-- C7 (confirmed): for a VECTOR or VECTORTILE config whose `format` is not
in the table, construction fails with the `TypeError` of invoking a missing
constructor, and no layer is returned. -/
theorem claim_C7 (fetch : JVal → List Config) (rnd : Nat → String) (fuel k : Nat) (c : Config)
    (ht : c.type = JVal.str "VECTOR" ∨ c.type = JVal.str "VECTORTILE")
    (hf : formatMapping c.format = none) :
    (getInstance fetch rnd fuel k c).result = Except.error Err.typeError := by
  obtain ⟨onColl, he⟩ := getInstance_eq_core fetch rnd fuel
  rw [he]
  rcases ht with ht | ht
  · simp [getInstanceCore, ht, createVectorLayer, hf, Except.map]
  · simp [getInstanceCore, ht, createVectorTileLayer, hf, Except.map]

/-- C7 witness: a VECTOR config with format `"CSV"` fails with the
construction-time error. -/
theorem claim_C7_witness :
    (getInstance (fun _ => []) (fun _ => "0.abcde") 0 0
        { type := JVal.str "VECTOR", lid := JVal.str "v", format := JVal.str "CSV" }).result
      = Except.error Err.typeError :=
  claim_C7 (fun _ => []) (fun _ => "0.abcde") 0 0
    { type := JVal.str "VECTOR", lid := JVal.str "v", format := JVal.str "CSV" }
    (Or.inl rfl) rfl

/-- C8 (confirmed): for a WMS config, the constructed source's query
parameters `LAYERS` and `TILED` are taken verbatim from `config.layers`
and `config.tiled`. -/
theorem claim_C8 (fetch : JVal → List Config) (rnd : Nat → String) (fuel k : Nat) (c : Config)
    (ht : c.type = JVal.str "WMS") :
    ∃ w : WmsLayer,
      (getInstance fetch rnd fuel k c).result = Except.ok (JsLayerVal.layer (Layer.wms w)) ∧
      w.source.paramsLAYERS = c.layers ∧
      w.source.paramsTILED = c.tiled := by
  obtain ⟨onColl, he⟩ := getInstance_eq_core fetch rnd fuel
  rw [he]
  refine ⟨createWmsLayer
      { c with lid := if truthy c.lid then c.lid else JVal.str (randomId (rnd k)) },
    ?_, rfl, rfl⟩
  simp [getInstanceCore, ht]

/-- C8 witness: `layers: "roads"`, `tiled: true` appear as `LAYERS=roads`
and `TILED=true` in the source params. -/
theorem claim_C8_witness :
    ∃ w : WmsLayer,
      (getInstance (fun _ => []) (fun _ => "0.abcde") 0 0
          { type := JVal.str "WMS", lid := JVal.str "w", layers := JVal.str "roads",
            tiled := JVal.bool true }).result
        = Except.ok (JsLayerVal.layer (Layer.wms w)) ∧
      w.source.paramsLAYERS = JVal.str "roads" ∧
      w.source.paramsTILED = JVal.bool true :=
  claim_C8 (fun _ => []) (fun _ => "0.abcde") 0 0
    { type := JVal.str "WMS", lid := JVal.str "w", layers := JVal.str "roads",
      tiled := JVal.bool true } rfl

/-- C9 (confirmed): for an OSM config, changing only the `url` field changes
nothing in the outcome: the OSM builder always uses the default basemap
source and never reads `url`. -/
theorem claim_C9 (fetch : JVal → List Config) (rnd : Nat → String) (fuel k : Nat)
    (c : Config) (u : JVal)
    (ht : c.type = JVal.str "OSM") :
    (getInstance fetch rnd fuel k { c with url := u }).result
      = (getInstance fetch rnd fuel k c).result := by
  obtain ⟨onColl, he⟩ := getInstance_eq_core fetch rnd fuel
  rw [he]
  simp [getInstanceCore, ht, createOsmLayer]

/-- C9 witness: two OSM configs differing only in `url` produce the same
layer. -/
theorem claim_C9_witness :
    (getInstance (fun _ => []) (fun _ => "0.abcde") 0 0
        ({ type := JVal.str "OSM", name := JVal.str "base", lid := JVal.str "osm",
            url := JVal.str "https://example.test/tiles" } : Config)).result
      = (getInstance (fun _ => []) (fun _ => "0.abcde") 0 0
          { type := JVal.str "OSM", name := JVal.str "base", lid := JVal.str "osm" }).result :=
  claim_C9 (fun _ => []) (fun _ => "0.abcde") 0 0
    { type := JVal.str "OSM", name := JVal.str "base", lid := JVal.str "osm" }
    (JVal.str "https://example.test/tiles") rfl

/-- C10 (confirmed): for every config with a recognized non-collection type
(with a supported format where one is needed), the produced layer's
`selectable` option is exactly `false` when `config.selectable` is absent or
falsy, and is passed through unchanged when truthy, while `name`, `visible`
and `opacity` are copied verbatim with no default. -/
theorem claim_C10 (fetch : JVal → List Config) (rnd : Nat → String) (fuel k : Nat) (c : Config)
    (h1 : isNonCollType c.type = true)
    (h2 : (c.type = JVal.str "VECTOR" ∨ c.type = JVal.str "VECTORTILE") →
      (formatMapping c.format).isSome = true) :
    ∃ l : Layer,
      (getInstance fetch rnd fuel k c).result = Except.ok (JsLayerVal.layer l) ∧
      Layer.selectable l
        = (if truthy c.selectable then c.selectable else JVal.bool false) ∧
      Layer.name l = c.name ∧
      Layer.visible l = c.visible ∧
      Layer.opacity l = c.opacity := by
  obtain ⟨l, heq, _, hname, hvis, hop, hsel, _, _⟩ :=
    getInstance_nonColl fetch rnd fuel k c h1 h2
  exact ⟨l, by rw [heq], hsel, hname, hvis, hop⟩

/-- C10 witness: a truthy non-boolean `selectable` (the number 1) is passed
through unchanged, and an absent `selectable` becomes `false`. -/
theorem claim_C10_witness :
    (∃ l : Layer,
      (getInstance (fun _ => []) (fun _ => "0.abcde") 0 0
          { type := JVal.str "OSM", lid := JVal.str "a", name := JVal.str "n",
            visible := JVal.bool false, opacity := JVal.num (1 / 2),
            selectable := JVal.num 1 }).result
        = Except.ok (JsLayerVal.layer l) ∧
      Layer.selectable l
        = (if truthy (JVal.num 1) then JVal.num 1 else JVal.bool false) ∧
      Layer.name l = JVal.str "n" ∧
      Layer.visible l = JVal.bool false ∧
      Layer.opacity l = JVal.num (1 / 2)) ∧
    (∃ l : Layer,
      (getInstance (fun _ => []) (fun _ => "0.abcde") 0 0
          { type := JVal.str "OSM", lid := JVal.str "b" }).result
        = Except.ok (JsLayerVal.layer l) ∧
      Layer.selectable l
        = (if truthy JVal.undef then JVal.undef else JVal.bool false) ∧
      Layer.name l = JVal.undef ∧
      Layer.visible l = JVal.undef ∧
      Layer.opacity l = JVal.undef) :=
  ⟨claim_C10 (fun _ => []) (fun _ => "0.abcde") 0 0
      { type := JVal.str "OSM", lid := JVal.str "a", name := JVal.str "n",
        visible := JVal.bool false, opacity := JVal.num (1 / 2),
        selectable := JVal.num 1 } (by decide) (by decide),
    claim_C10 (fun _ => []) (fun _ => "0.abcde") 0 0
      { type := JVal.str "OSM", lid := JVal.str "b" } (by decide) (by decide)⟩
